import Mathlib

/-!
Verification of the record reader/validator script of this repository
(src/simulator/parse_results.py).

The script is:

  output_file = "output.csv"
  with open(output_file) as f:   -- text mode read
      next(f)                    -- skip the header line
      for line in f:
          line = line.split(",")
          policy = line[0]
          hits = int(line[2])
          batchHits of the record = list of int over the last field,
            sliced from index 1 up to index -2, split on a single space
          assert hits equals the sum of batchHits
          print policy, hits and the standard list rendering of batchHits

We shallow-embed the script over explicit character lists.  A run is a
function from the optional file contents (none when the file cannot be
opened) to the list of printed lines together with the way the run ended.
Printed lines are modelled without the newline that print appends.
-/

/-- The module-level constant fixing the input path. -/
def output_file : String := "output.csv"

/-- The ways the script can terminate abnormally, one constructor per
Python exception that can escape the main block: StopIteration from
skipping the header of an empty file, IndexError from indexing a short
field list, ValueError from integer parsing, AssertionError from the
invariant check, and OSError from opening a missing or unreadable file. -/
inductive PyErr where
  | stopIterationErr : PyErr
  | indexErr : PyErr
  | valueErr : PyErr
  | assertionErr : PyErr
  | fileAccessErr : PyErr
deriving DecidableEq

/-- Outcome of a run: the lines printed to standard output, in order, and
the abnormal termination if any (none means normal exit). -/
structure RunResult where
  output : List String
  err : Option PyErr
deriving DecidableEq

/-- The characters stripped by the Python int constructor before parsing
(ASCII whitespace, which is all the inputs here can contain). -/
def pyIsSpace (c : Char) : Bool :=
  c = ' ' || c = '\t' || c = '\n' || c = '\r' || c = '\x0b' || c = '\x0c'

/-- Decimal digit test. -/
def pyIsDigit (c : Char) : Bool :=
  '0' ≤ c && c ≤ '9'

/-- Value of a list of decimal digits. -/
def digitsVal (cs : List Char) : Nat :=
  cs.foldl (fun n c => 10 * n + (c.toNat - '0'.toNat)) 0

/-- Signed digit strings: an optional sign followed by a nonempty run of
digits, as the Python int constructor accepts after stripping. -/
def signedVal : List Char → Option Int
  | [] => none
  | c :: cs =>
    if c = '-' then
      if cs ≠ [] ∧ cs.all pyIsDigit then some (-(digitsVal cs : Int)) else none
    else if c = '+' then
      if cs ≠ [] ∧ cs.all pyIsDigit then some ((digitsVal cs : Int)) else none
    else
      if (c :: cs).all pyIsDigit then some ((digitsVal (c :: cs) : Int)) else none

/-- The Python int constructor on a string: strip whitespace from both
ends, then parse an optional sign and a nonempty digit run; none models
the ValueError raised on anything else.  (Underscore digit grouping and
non-ASCII digits, which no input of this file format contains, are not
modelled.) -/
def pyInt (s : String) : Option Int :=
  signedVal (((s.data.dropWhile pyIsSpace).reverse.dropWhile pyIsSpace).reverse)

/-- Python str.split with a one-character separator: the pieces between
occurrences of the separator, empty pieces kept, so the result always has
one more piece than there are separators and is never empty. -/
def splitOnChar (sep : Char) : List Char → List (List Char)
  | [] => [[]]
  | c :: cs =>
    if c = sep then [] :: splitOnChar sep cs
    else
      match splitOnChar sep cs with
      | [] => [[c]]
      | p :: ps => (c :: p) :: ps

/-- str.split lifted to strings. -/
def pySplit (s : String) (sep : Char) : List String :=
  (splitOnChar sep s.data).map String.mk

/-- The Python slice from index 1 up to index -2 of a string, with the
clamping slicing semantics: drop the first character and keep the next
(length minus 3) characters. -/
def pySliceOneTwo (s : String) : String :=
  String.mk ((s.data.drop 1).take (s.data.length - 3))

/-- Parsing every token of a list with the int constructor, in order;
none models the ValueError raised by the first unparseable token. -/
def intsOfTokens : List String → Option (List Int)
  | [] => some []
  | t :: ts =>
    match pyInt t with
    | none => none
    | some n =>
      match intsOfTokens ts with
      | none => none
      | some ns => some (n :: ns)

/-- The batchHits expression of the script applied to the last field of a
line: slice the field from 1 to -2, split the remainder on a single space,
and parse every token with the int constructor. -/
def batchHitsOfField (field : String) : Option (List Int) :=
  intsOfTokens (pySplit (pySliceOneTwo field) ' ')

/-- line.split on a comma. -/
def fieldsOf (l : String) : List String :=
  pySplit l ','

/-- Field 0 of a line, the policy label (split never returns an empty
list, so the default is never taken). -/
def policyOf (l : String) : String :=
  (fieldsOf l).headD ""

/-- int of field 2 of a line, when field 2 exists and parses. -/
def hitsOf (l : String) : Option Int :=
  ((fieldsOf l)[2]?).bind pyInt

/-- The batchHits sequence of a line: the batchHits expression applied to
the last field (split never returns an empty list, so the default is
never taken). -/
def batchOf (l : String) : Option (List Int) :=
  batchHitsOfField ((fieldsOf l).getLastD "")

/-- The Python rendering of a list of ints: brackets around the elements
separated by a comma and a space, as the f-string interpolation of
batchHits produces. -/
def pyListRepr (xs : List Int) : String :=
  "[" ++ String.intercalate ", " (xs.map toString) ++ "]"

/-- The f-string printed for a validated record. -/
def formatLine (policy : String) (hits : Int) (batchHits : List Int) : String :=
  policy ++ ", " ++ toString hits ++ " = sum(" ++ pyListRepr batchHits ++ ")"

/-- One iteration of the loop body on a data line, with the evaluation
order of the script: index field 2 (IndexError when absent), parse it as
an int (ValueError), build batchHits from the last field (ValueError),
check the assertion (AssertionError), and otherwise return the printed
line. -/
def processLine (l : String) : Except PyErr String :=
  match (fieldsOf l)[2]? with
  | none => Except.error PyErr.indexErr
  | some hitsField =>
    match pyInt hitsField with
    | none => Except.error PyErr.valueErr
    | some hits =>
      match batchOf l with
      | none => Except.error PyErr.valueErr
      | some batchHits =>
        if hits = batchHits.sum then
          Except.ok (formatLine (policyOf l) hits batchHits)
        else Except.error PyErr.assertionErr

/-- The loop over the data lines: print the formatted line of each record
in order, stopping at the first line whose processing raises, which ends
the run with that error and without output for that line or the later
ones. -/
def processAll : List String → RunResult
  | [] => ⟨[], none⟩
  | l :: ls =>
    match processLine l with
    | Except.ok out =>
      let r := processAll ls
      ⟨out :: r.output, r.err⟩
    | Except.error e => ⟨[], some e⟩

/-- Splitting file contents into the lines iterating a text-mode file
yields: maximal chunks each keeping their terminating newline, plus a
final unterminated chunk when the contents do not end in a newline; the
accumulator holds the current chunk reversed. -/
def splitLinesAux : List Char → List Char → List String
  | [], acc => if acc.isEmpty then [] else [String.mk acc.reverse]
  | c :: cs, acc =>
    if c = '\n' then
      String.mk (acc.reverse ++ ['\n']) :: splitLinesAux cs []
    else splitLinesAux cs (c :: acc)

/-- The lines of the file contents, as iterating the open file yields
them. -/
def pyLines (s : String) : List String :=
  splitLinesAux s.data []

/-- The body of the with block on the lines of the file: next on an empty
file raises StopIteration; otherwise the first line (the header) is
discarded unexamined and the loop runs on the rest. -/
def runLines : List String → RunResult
  | [] => ⟨[], some PyErr.stopIterationErr⟩
  | _ :: rest => processAll rest

/-- The whole script as a function of the file contents; none models a
file that open cannot read, which raises before anything is printed. -/
def runProgram : Option String → RunResult
  | none => ⟨[], some PyErr.fileAccessErr⟩
  | some contents => runLines (pyLines contents)

/-- Modelled from the words of claim C2: a batch parse that strips the
outer TWO leading and two trailing characters of the last field before
splitting the remainder on single spaces and parsing each token as an
integer.  It is compared below with the batch parse of the script, which
strips ONE leading character. -/
def claimedTwoTwoBatchHits (field : String) : Option (List Int) :=
  intsOfTokens (pySplit (String.mk (((field.data.drop 2).dropLast).dropLast)) ' ')

/-- Modelled from the amended wording of claim C2: strip ONE leading and
two trailing characters of the last field, split the remainder on single
spaces, parse each token as an integer. -/
def specOneTwoBatchHits (field : String) : Option (List Int) :=
  intsOfTokens (pySplit (String.mk (((field.data.drop 1).dropLast).dropLast)) ' ')

deriving instance DecidableEq for Except

/-! Helper lemmas shared by the claim theorems. -/

/-- Dropping the last element twice is taking all but the last two. -/
theorem dropLast_dropLast {α : Type} (l : List α) :
    l.dropLast.dropLast = l.take (l.length - 2) := by
  rw [List.dropLast_eq_take, List.dropLast_eq_take, List.take_take, List.length_take]
  congr 1
  omega

/-- The Python slice from 1 to -2 strips one leading and two trailing
characters. -/
theorem pySliceOneTwo_eq_dropLast (s : String) :
    pySliceOneTwo s = String.mk (((s.data.drop 1).dropLast).dropLast) := by
  unfold pySliceOneTwo
  rw [dropLast_dropLast, List.length_drop]
  have h : s.data.length - 1 - 2 = s.data.length - 3 := by omega
  rw [h]

/-- Splitting never yields an empty list of pieces. -/
theorem splitOnChar_ne_nil (sep : Char) (cs : List Char) : splitOnChar sep cs ≠ [] := by
  cases cs with
  | nil => simp [splitOnChar]
  | cons c cs =>
    unfold splitOnChar
    split
    · simp
    · split <;> simp

/-- str.split never yields an empty list of pieces. -/
theorem pySplit_ne_nil (s : String) (sep : Char) : pySplit s sep ≠ [] := by
  unfold pySplit
  intro h
  exact splitOnChar_ne_nil sep s.data (List.map_eq_nil_iff.mp h)

/-- Parsing a nonempty token list never yields the empty sequence. -/
theorem intsOfTokens_ne_some_nil (t : String) (ts : List String) :
    intsOfTokens (t :: ts) ≠ some [] := by
  unfold intsOfTokens
  split
  · simp
  · split <;> simp

/-- A field whose slice is empty has no parseable batch sequence: the
split of the empty remainder is the single empty token, which the int
constructor rejects. -/
theorem batchHitsOfField_of_empty_slice (field : String)
    (h : pySliceOneTwo field = "") : batchHitsOfField field = none := by
  unfold batchHitsOfField
  rw [h]
  decide

/-- When field 2 parses and the batch parse succeeds, the loop body
reduces to the assertion check. -/
theorem processLine_of_hits_batch (l : String) (hits : Int) (bh : List Int)
    (hh : hitsOf l = some hits) (hb : batchOf l = some bh) :
    processLine l =
      if hits = bh.sum then Except.ok (formatLine (policyOf l) hits bh)
      else Except.error PyErr.assertionErr := by
  unfold hitsOf at hh
  rcases Option.bind_eq_some.mp hh with ⟨hf, hget, hint⟩
  simp [processLine, hget, hint, hb]

/-- A printed line comes from a record whose fields all parsed and whose
assertion held. -/
theorem processLine_ok_elim (l out : String) (h : processLine l = Except.ok out) :
    ∃ (hits : Int) (bh : List Int),
      hitsOf l = some hits ∧ batchOf l = some bh ∧ hits = bh.sum ∧
      out = formatLine (policyOf l) hits bh := by
  unfold processLine at h
  split at h
  · exact absurd h (by simp)
  next hf hget =>
    split at h
    · exact absurd h (by simp)
    next hits hint =>
      split at h
      · exact absurd h (by simp)
      next bh hb =>
        split at h
        next hsum =>
          refine ⟨hits, bh, ?_, hb, hsum, (Except.ok.inj h).symm⟩
          unfold hitsOf
          rw [hget]
          exact hint
        · exact absurd h (by simp)

/-- The loop over a prefix of valid lines followed by a failing line:
the printed output is exactly that of the prefix and the run ends with
the error of the failing line. -/
theorem processAll_append_err (pre : List String) (l : String) (rest : List String)
    (e : PyErr) (hpre : (processAll pre).err = none)
    (hl : processLine l = Except.error e) :
    processAll (pre ++ l :: rest) = ⟨(processAll pre).output, some e⟩ := by
  induction pre with
  | nil => simp [processAll, hl]
  | cons p ps ih =>
    cases hp : processLine p with
    | error e₀ => simp [processAll, hp] at hpre
    | ok o =>
      have hps : (processAll ps).err = none := by
        simpa [processAll, hp] using hpre
      simp [processAll, hp, ih hps]

/-! The claim theorems. -/

/-- Claim C1: for an input file consisting of one header line and the
single data line greedy,42,99,[3 5 7 84] followed by a line terminator,
the program parses batchHits as the sequence 3, 5, 7, 84, its sum 99
equals the hits field 99, and the run prints exactly the one line
greedy, 99 = sum([3, 5, 7, 84]). -/
theorem single_greedy_record_run (contents headerLine : String)
    (hsplit : pyLines contents = [headerLine, "greedy,42,99,[3 5 7 84]\n"]) :
    batchOf "greedy,42,99,[3 5 7 84]\n" = some [3, 5, 7, 84] ∧
    ([3, 5, 7, 84] : List Int).sum = 99 ∧
    hitsOf "greedy,42,99,[3 5 7 84]\n" = some 99 ∧
    runProgram (some contents) = ⟨["greedy, 99 = sum([3, 5, 7, 84])"], none⟩ := by
  refine ⟨by decide, by decide, by decide, ?_⟩
  show runLines (pyLines contents) = _
  rw [hsplit]
  show processAll ["greedy,42,99,[3 5 7 84]\n"] = _
  decide

/-- Witness for C1 at the concrete two-line file. -/
theorem single_greedy_record_run_witness :
    runProgram (some "policy,run,hits,batchHits\ngreedy,42,99,[3 5 7 84]\n")
      = ⟨["greedy, 99 = sum([3, 5, 7, 84])"], none⟩ :=
  (single_greedy_record_run "policy,run,hits,batchHits\ngreedy,42,99,[3 5 7 84]\n"
    "policy,run,hits,batchHits\n" (by decide)).2.2.2

/-- Claim C2 as stated is false on the code: on the canonical data line
the last field is the bracketed list followed by the newline, and
stripping TWO leading characters before splitting makes the first token
unparseable (and loses the first value), while the script, which strips
ONE leading and two trailing characters, parses the sequence 3, 5, 7,
84. -/
theorem two_leading_strip_refuted :
    (fieldsOf "greedy,42,99,[3 5 7 84]\n").getLastD "" = "[3 5 7 84]\n" ∧
    claimedTwoTwoBatchHits "[3 5 7 84]\n" = none ∧
    batchOf "greedy,42,99,[3 5 7 84]\n" = some [3, 5, 7, 84] := by
  decide

/-- Claim C2 amended: for every data line, the batchHits sequence is
obtained from the last comma-separated field by stripping its
outer ONE leading and two trailing characters, then splitting the
remainder on single spaces and parsing each token as an integer. -/
theorem batch_strip_one_leading_two_trailing (field : String) :
    batchHitsOfField field = specOneTwoBatchHits field := by
  unfold batchHitsOfField specOneTwoBatchHits
  rw [pySliceOneTwo_eq_dropLast]

/-- Claim C3: a record whose recomputed sum disagrees with its hits field
makes the loop body raise the assertion error; a run reaching such a
record ends with that error, keeping exactly the output of the preceding
valid records and printing nothing for the failing one; and conversely a
line is printed only when its hits field equals the sum of its batchHits
sequence. -/
theorem assertion_on_sum_mismatch :
    (∀ (l : String) (hits : Int) (bh : List Int),
      hitsOf l = some hits → batchOf l = some bh → hits ≠ bh.sum →
      processLine l = Except.error PyErr.assertionErr) ∧
    (∀ (pre : List String) (l : String) (rest : List String),
      (processAll pre).err = none →
      processLine l = Except.error PyErr.assertionErr →
      processAll (pre ++ l :: rest) = ⟨(processAll pre).output, some PyErr.assertionErr⟩) ∧
    (∀ (l out : String), processLine l = Except.ok out →
      ∃ (hits : Int) (bh : List Int),
        hitsOf l = some hits ∧ batchOf l = some bh ∧ hits = bh.sum) := by
  refine ⟨?_, ?_, ?_⟩
  · intro l hits bh hh hb hne
    rw [processLine_of_hits_batch l hits bh hh hb, if_neg hne]
  · intro pre l rest hpre hl
    exact processAll_append_err pre l rest _ hpre hl
  · intro l out hok
    rcases processLine_ok_elim l out hok with ⟨hits, bh, hh, hb, hsum, _⟩
    exact ⟨hits, bh, hh, hb, hsum⟩

/-- Witness for C3 at the mismatched record of the spec, whose batch sums
to 6 while its hits field is 10. -/
theorem assertion_on_sum_mismatch_witness :
    processAll ([] ++ "lru,0,10,[2 2 2]\n" :: [])
      = ⟨(processAll []).output, some PyErr.assertionErr⟩ :=
  assertion_on_sum_mismatch.2.1 [] "lru,0,10,[2 2 2]\n" [] (by decide)
    (assertion_on_sum_mismatch.1 "lru,0,10,[2 2 2]\n" 10 [2, 2, 2]
      (by decide) (by decide) (by decide))

/-- Claim C4: the header line is never parsed or validated: the run on
any first line followed by the same data lines is the same, and the first
printed line, when there is one, is the formatted second line of the
file. -/
theorem header_line_skipped :
    (∀ (h h' : String) (rest : List String), runLines (h :: rest) = runLines (h' :: rest)) ∧
    (∀ (h l : String) (rest : List String) (out : String),
      processLine l = Except.ok out →
      (runLines (h :: l :: rest)).output.head? = some out) := by
  constructor
  · intro h h' rest
    rfl
  · intro h l rest out hok
    show (processAll (l :: rest)).output.head? = some out
    simp [processAll, hok]

/-- Witness for C4: with the greedy data line in second position, the
first printed line is its summary, whatever the header holds. -/
theorem header_line_skipped_witness :
    (runLines ["x", "greedy,42,99,[3 5 7 84]\n"]).output.head?
      = some "greedy, 99 = sum([3, 5, 7, 84])" :=
  header_line_skipped.2 "x" "greedy,42,99,[3 5 7 84]\n" []
    "greedy, 99 = sum([3, 5, 7, 84])" (by decide)

/-- Claim C5: when the file cannot be opened, the run ends with the
file-access error and prints nothing. -/
theorem missing_file_aborts :
    runProgram none = ⟨[], some PyErr.fileAccessErr⟩ ∧ (runProgram none).output = [] :=
  ⟨rfl, rfl⟩

/-- Claim C6: a data line with fewer than the three fields the script
indexes raises the index error; a line with three or more fields whose
hits field does not parse, or whose batch field does not parse, raises
the value error; and a run reaching the first such line ends with that
error, keeping exactly the printed lines of the preceding valid records. -/
theorem parse_error_behavior :
    (∀ l : String, (fieldsOf l).length ≤ 2 → processLine l = Except.error PyErr.indexErr) ∧
    (∀ l : String, 3 ≤ (fieldsOf l).length → hitsOf l = none →
      processLine l = Except.error PyErr.valueErr) ∧
    (∀ (l : String) (hits : Int), hitsOf l = some hits → batchOf l = none →
      processLine l = Except.error PyErr.valueErr) ∧
    (∀ (pre : List String) (l : String) (rest : List String) (e : PyErr),
      (processAll pre).err = none →
      (e = PyErr.indexErr ∨ e = PyErr.valueErr) →
      processLine l = Except.error e →
      processAll (pre ++ l :: rest) = ⟨(processAll pre).output, some e⟩) := by
  refine ⟨?_, ?_, ?_, ?_⟩
  · intro l hlen
    have hnone : (fieldsOf l)[2]? = none := by
      rw [List.getElem?_eq_none_iff]
      omega
    simp [processLine, hnone]
  · intro l h3 hnone
    rcases hget : (fieldsOf l)[2]? with _ | hf
    · rw [List.getElem?_eq_none_iff] at hget
      omega
    · have hint : pyInt hf = none := by
        unfold hitsOf at hnone
        rw [hget] at hnone
        exact hnone
      simp [processLine, hget, hint]
  · intro l hits hh hb
    unfold hitsOf at hh
    rcases Option.bind_eq_some.mp hh with ⟨hf, hget, hint⟩
    simp [processLine, hget, hint, hb]
  · intro pre l rest e hpre _ hl
    exact processAll_append_err pre l rest e hpre hl

/-- Witness for C6: after one valid record, a two-field line aborts the
run with the index error and the printed line of the valid record stands. -/
theorem parse_error_behavior_witness :
    processAll (["greedy,42,99,[3 5 7 84]\n"] ++ "x,y\n" :: [])
      = ⟨(processAll ["greedy,42,99,[3 5 7 84]\n"]).output, some PyErr.indexErr⟩ :=
  parse_error_behavior.2.2.2 ["greedy,42,99,[3 5 7 84]\n"] "x,y\n" [] PyErr.indexErr
    (by decide) (Or.inl rfl)
    (parse_error_behavior.1 "x,y\n" (by decide))

/-- Claim C7: the run is a function of the file contents alone, so two
runs over the same unchanged contents print identical output and end the
same way. -/
theorem run_deterministic (contents : Option String) (r₁ r₂ : RunResult)
    (h₁ : r₁ = runProgram contents) (h₂ : r₂ = runProgram contents) :
    r₁.output = r₂.output ∧ r₁.err = r₂.err := by
  subst h₁
  subst h₂
  exact ⟨rfl, rfl⟩

/-- Witness for C7 at a concrete file. -/
theorem run_deterministic_witness :
    (runProgram (some "h\ngreedy,42,99,[3 5 7 84]\n")).output
        = (runProgram (some "h\ngreedy,42,99,[3 5 7 84]\n")).output ∧
      (runProgram (some "h\ngreedy,42,99,[3 5 7 84]\n")).err
        = (runProgram (some "h\ngreedy,42,99,[3 5 7 84]\n")).err :=
  run_deterministic (some "h\ngreedy,42,99,[3 5 7 84]\n")
    (runProgram (some "h\ngreedy,42,99,[3 5 7 84]\n"))
    (runProgram (some "h\ngreedy,42,99,[3 5 7 84]\n")) rfl rfl

/-- Claim C8: on a file with zero lines the header skip fails, so the run
ends abnormally with the StopIteration error and prints nothing, rather
than exiting normally with empty output. -/
theorem empty_file_aborts :
    runProgram (some "") = ⟨[], some PyErr.stopIterationErr⟩ ∧
    (runProgram (some "")).err ≠ none := by
  exact ⟨rfl, by decide⟩

/-- Claim C9 as stated is false on the code: the line consisting of just
the bracket pair has an empty stripped remainder, yet the run aborts with
the index error of the missing field 2, not with an integer-parse
error. -/
theorem empty_batch_index_error :
    pySliceOneTwo ((fieldsOf "[]\n").getLastD "") = "" ∧
    processLine "[]\n" = Except.error PyErr.indexErr ∧
    PyErr.indexErr ≠ PyErr.valueErr := by
  refine ⟨by decide, by rfl, by decide⟩

/-- Claim C9 amended: an empty batchHits sequence is unrepresentable (the
batch parse never returns the empty sequence); a field whose stripped
remainder is empty has no parseable batch, because splitting the empty
remainder yields a single empty token that the int constructor rejects;
and a data line with at least three comma-separated fields whose last
field strips to the empty remainder makes the loop body raise the
integer-parse error (a line with fewer fields aborts earlier with the
index error). -/
theorem empty_batch_unrepresentable :
    (∀ field : String, batchHitsOfField field ≠ some []) ∧
    (∀ field : String, pySliceOneTwo field = "" → batchHitsOfField field = none) ∧
    (∀ l : String, 3 ≤ (fieldsOf l).length →
      pySliceOneTwo ((fieldsOf l).getLastD "") = "" →
      processLine l = Except.error PyErr.valueErr) := by
  refine ⟨?_, ?_, ?_⟩
  · intro field
    unfold batchHitsOfField
    rcases hs : pySplit (pySliceOneTwo field) ' ' with _ | ⟨t, ts⟩
    · exact absurd hs (pySplit_ne_nil _ _)
    · exact intsOfTokens_ne_some_nil t ts
  · intro field hs
    exact batchHitsOfField_of_empty_slice field hs
  · intro l h3 hs
    have hb : batchOf l = none := batchHitsOfField_of_empty_slice _ hs
    rcases hget : (fieldsOf l)[2]? with _ | hf
    · rw [List.getElem?_eq_none_iff] at hget
      omega
    · cases hint : pyInt hf with
      | none => simp [processLine, hget, hint]
      | some hits => simp [processLine, hget, hint, hb]

/-- Witness for C9 at a well-formed line whose batch field is the empty
bracket pair. -/
theorem empty_batch_unrepresentable_witness :
    processLine "lru,0,0,[]\n" = Except.error PyErr.valueErr :=
  empty_batch_unrepresentable.2.2 "lru,0,0,[]\n" (by decide) (by decide)

/-- Claim C10: no non-negativity check is performed: every line whose
parsed hits equals the sum of its parsed batchHits is printed, whatever
the signs, and in particular a run over a record with negative hits and
negative batch values summing to it prints its summary line and exits
normally. -/
theorem no_nonnegativity_check :
    (∀ (l : String) (hits : Int) (bh : List Int),
      hitsOf l = some hits → batchOf l = some bh → hits = bh.sum →
      processLine l = Except.ok (formatLine (policyOf l) hits bh)) ∧
    runProgram (some "policy,run,hits,batchHits\nlru,0,-6,[-2 -4]\n")
      = ⟨["lru, -6 = sum([-2, -4])"], none⟩ := by
  constructor
  · intro l hits bh hh hb hsum
    rw [processLine_of_hits_batch l hits bh hh hb, if_pos hsum]
  · decide

/-- Witness for C10 at the negative record. -/
theorem no_nonnegativity_check_witness :
    processLine "lru,0,-6,[-2 -4]\n" = Except.ok "lru, -6 = sum([-2, -4])" := by
  have h := no_nonnegativity_check.1 "lru,0,-6,[-2 -4]\n" (-6) [-2, -4]
    (by decide) (by decide) (by decide)
  rw [h]
  decide
